import Mathlib

/-!
Verification of the matching core of the tick-based order book repository.

The embedding translates, from the TypeScript source:
- `matcher/src/matcher.ts`   (`MatchingEngine`: `findMatches`, `findMatchesAtTick`,
  `evaluateMatch`, `calculateSettlement`),
- `matcher/src/registry.ts`  (`RegistryMonitor`: order book maps, `addOrder`,
  `removeOrder`, `getBuyOrdersInRange`, `getSellOrdersInRange`,
  `findOverlappingTicks`),
- `matcher/src/executor.ts`  (`SettlementExecutor.calculateMatcherFee`),
- the matcher config loader (`loadConfig`: the default
  `minProfitBasisPoints` of 10 used when the environment variable is
  unset),
- `client/lib/aleo-contract.ts` (`AleoContract.validateTickOrder`,
  `calculateMidpointPrice`),
- the client contract-helper module (`validateTickOrder`,
  `calculateMidpointPrice` with `Math.floor`).

Modelling conventions:
- JS `bigint` values become `ℤ`; `bigint` division truncates toward zero and is
  modelled by `Int.tdiv`.
- JS `number` values used as integers (tick ids, basis-point prices,
  quantities) become `ℤ`; all concrete values involved are far below `2 ^ 53`,
  where IEEE double arithmetic on integers is exact, so the integer model is
  exact.  `Math.floor` of an exact halving is `Int.fdiv`.
- The one place a `number` result is genuinely fractional
  (`AleoContract.calculateMidpointPrice`) is modelled over `ℚ`; at the inputs
  considered the double operations (integer add below `2 ^ 53`, divide by 2)
  are exact, so the rational model is exact there as well.
- JS `Map` objects (insertion-ordered, keyed) become association lists;
  `Map.set` replaces in place or appends, `Map.delete` filters, iteration is
  list order.
- `Array.prototype.sort` is a stable sort; the comparator
  `(a, b) => b.profitability - a.profitability` sorts by descending
  profitability with ties kept in encounter order, modelled by
  `List.mergeSort` with the matching boolean relation.
-/

/-- Order record (matcher `TickOrder` type) as used by `matcher.ts` and
`registry.ts`.  Owner addresses and nonces are opaque identifiers, modelled
as `ℕ`. -/
structure TickOrder where
  owner : ℕ
  token_pair : ℕ
  is_buy : Bool
  tick_lower : ℤ
  tick_upper : ℤ
  limit_price : ℤ
  quantity : ℤ
  filled : ℤ
  created_at : ℤ
  nonce : ℕ
  deriving Repr, DecidableEq

/-- `MatchCandidate` as produced by `MatchingEngine.evaluateMatch`. -/
structure MatchCandidate where
  buyOrder : TickOrder
  sellOrder : TickOrder
  overlapTicks : List ℤ
  expectedQuantity : ℤ
  expectedPrice : ℤ
  profitability : ℤ
  deriving Repr, DecidableEq

/-- `TICK_SIZE = 100n` (matcher.ts). -/
def TICK_SIZE : ℤ := 100

/-- `BASIS_POINTS_PER_DOLLAR = 10000n` (matcher.ts). -/
def BASIS_POINTS_PER_DOLLAR : ℤ := 10000

/-- `MATCHER_FEE_BPS = 5n` (matcher.ts). -/
def MATCHER_FEE_BPS : ℤ := 5

/-- Default `minProfitBasisPoints` of the matcher config loader:
`loadConfig` sets `minProfitBasisPoints` to
`parseInt` of `process.env.MIN_PROFIT_BASIS_POINTS` with fallback 10, so
with the environment variable unset `config.minProfitBasisPoints`, the
threshold read by `evaluateMatch`, is 10 (the matcher README documents the
same default). -/
def defaultMinProfitBasisPoints : ℤ := 10

/-- The midpoint execution price of `evaluateMatch` (matcher.ts line 121):
`(buyOrder.limit_price + sellOrder.limit_price) / 2n`, bigint division
truncating toward zero. -/
def matcherExecutionPrice (buyLimit sellLimit : ℤ) : ℤ :=
  Int.tdiv (buyLimit + sellLimit) 2

/-- The `overlapTicks` array built by the
`for (let tick = overlapLower; tick <= overlapUpper; tick++)` loop. -/
def overlapTickList (lo hi : ℤ) : List ℤ :=
  (List.range (hi + 1 - lo).toNat).map (fun i => lo + i)

/-- `MatchingEngine.evaluateMatch` (matcher.ts lines 78 to 153), with the
`config.minProfitBasisPoints` read made an explicit parameter `minBps`. -/
def evaluateMatch (minBps : ℤ) (buyOrder sellOrder : TickOrder) :
    Option MatchCandidate :=
  if buyOrder.token_pair ≠ sellOrder.token_pair then none
  else if buyOrder.owner = sellOrder.owner then none
  else
    let overlapLower := max buyOrder.tick_lower sellOrder.tick_lower
    let overlapUpper := min buyOrder.tick_upper sellOrder.tick_upper
    if overlapLower > overlapUpper then none
    else if buyOrder.limit_price < sellOrder.limit_price then none
    else
      let overlapTicks := overlapTickList overlapLower overlapUpper
      let buyRemaining := buyOrder.quantity - buyOrder.filled
      let sellRemaining := sellOrder.quantity - sellOrder.filled
      let executionQuantity := min buyRemaining sellRemaining
      if executionQuantity = 0 then none
      else
        let executionPrice :=
          matcherExecutionPrice buyOrder.limit_price sellOrder.limit_price
        let minAllowedPrice := overlapLower * TICK_SIZE
        let maxAllowedPrice := overlapUpper * TICK_SIZE
        if executionPrice < minAllowedPrice ∨ executionPrice > maxAllowedPrice
        then none
        else
          let totalValue :=
            Int.tdiv (executionQuantity * executionPrice)
              BASIS_POINTS_PER_DOLLAR
          let matcherFee :=
            Int.tdiv (totalValue * MATCHER_FEE_BPS) BASIS_POINTS_PER_DOLLAR
          let priceSpread := buyOrder.limit_price - sellOrder.limit_price
          let profitability := priceSpread + matcherFee
          if profitability < minBps then none
          else some
            { buyOrder := buyOrder
              sellOrder := sellOrder
              overlapTicks := overlapTicks
              expectedQuantity := executionQuantity
              expectedPrice := executionPrice
              profitability := profitability }

/-- On-chain `TickInfo` entry of the tick registry (registry.ts). -/
structure TickInfo where
  tick_id : ℤ
  token_pair : ℕ
  total_buy_quantity : ℤ
  total_sell_quantity : ℤ
  num_orders : ℕ
  last_update : ℕ
  deriving Repr, DecidableEq

/-- `RegistryMonitor` state: the tick registry plus the two order-book maps
(`buyOrders`, `sellOrders`), each a JS `Map` keyed by nonce, modelled as an
insertion-ordered association list. -/
structure RegistryState where
  tickRegistry : List (ℤ × TickInfo)
  buyOrders : List (ℕ × TickOrder)
  sellOrders : List (ℕ × TickOrder)
  deriving Repr, DecidableEq

/-- JS `Map.set`: replace the value in place if the key is present, append
otherwise. -/
def mapSet (k : ℕ) (v : TickOrder) :
    List (ℕ × TickOrder) → List (ℕ × TickOrder)
  | [] => [(k, v)]
  | e :: rest => if e.1 = k then (k, v) :: rest else e :: mapSet k v rest

/-- JS `Map.delete`: remove the entry with the given key. -/
def mapDelete (k : ℕ) (l : List (ℕ × TickOrder)) : List (ℕ × TickOrder) :=
  l.filter (fun e => decide (e.1 ≠ k))

/-- `RegistryMonitor.addOrder` (registry.ts lines 141 to 151): store the
order in the buy or sell map under its nonce. -/
def addOrder (st : RegistryState) (order : TickOrder) : RegistryState :=
  if order.is_buy then
    { st with buyOrders := mapSet order.nonce order st.buyOrders }
  else
    { st with sellOrders := mapSet order.nonce order st.sellOrders }

/-- `RegistryMonitor.removeOrder` (registry.ts lines 156 to 163). -/
def removeOrder (st : RegistryState) (orderId : ℕ) (isBuy : Bool) :
    RegistryState :=
  if isBuy then
    { st with buyOrders := mapDelete orderId st.buyOrders }
  else
    { st with sellOrders := mapDelete orderId st.sellOrders }

/-- `RegistryMonitor.getBuyOrdersInRange` (registry.ts lines 168 to 182):
iterate the buy map values, keep orders whose tick range overlaps the query
(`order.tick_lower <= tickUpper && order.tick_upper >= tickLower`) and that
are not fully filled. -/
def getBuyOrdersInRange (st : RegistryState) (tickLower tickUpper : ℤ) :
    List TickOrder :=
  (st.buyOrders.map Prod.snd).filter
    (fun o => decide (o.tick_lower ≤ tickUpper ∧ tickLower ≤ o.tick_upper ∧
      o.filled < o.quantity))

/-- `RegistryMonitor.getSellOrdersInRange` (registry.ts lines 187 to 201). -/
def getSellOrdersInRange (st : RegistryState) (tickLower tickUpper : ℤ) :
    List TickOrder :=
  (st.sellOrders.map Prod.snd).filter
    (fun o => decide (o.tick_lower ≤ tickUpper ∧ tickLower ≤ o.tick_upper ∧
      o.filled < o.quantity))

/-- `RegistryMonitor.findOverlappingTicks` (registry.ts lines 79 to 90):
ticks whose registry entry shows both buy and sell quantity. -/
def findOverlappingTicks (st : RegistryState) : List ℤ :=
  (st.tickRegistry.filter
    (fun e => decide (0 < e.2.total_buy_quantity ∧
      0 < e.2.total_sell_quantity))).map Prod.fst

/-- `MatchingEngine.findMatchesAtTick` (matcher.ts lines 49 to 73): cross
every buy order overlapping the tick with every sell order overlapping it. -/
def findMatchesAtTick (minBps : ℤ) (st : RegistryState) (tickId : ℤ) :
    List MatchCandidate :=
  (getBuyOrdersInRange st tickId tickId).flatMap (fun b =>
    (getSellOrdersInRange st tickId tickId).filterMap (fun s =>
      evaluateMatch minBps b s))

/-- Comparator of `findMatches`: `(a, b) => b.profitability - a.profitability`
puts `a` first when its profitability is at least that of `b`; the JS sort is
stable. -/
def candLe (a b : MatchCandidate) : Bool :=
  decide (b.profitability ≤ a.profitability)

/-- `MatchingEngine.findMatches` (matcher.ts lines 26 to 44): concatenate the
per-tick candidate lists over all overlapping ticks, then stably sort by
descending profitability. -/
def findMatches (minBps : ℤ) (st : RegistryState) : List MatchCandidate :=
  (((findOverlappingTicks st).flatMap
    (findMatchesAtTick minBps st)).mergeSort candLe)

/-- Result record of `MatchingEngine.calculateSettlement`. -/
structure Settlement where
  baseAmount : ℤ
  quoteAmount : ℤ
  matcherFee : ℤ
  deriving Repr, DecidableEq

/-- `MatchingEngine.calculateSettlement` (matcher.ts lines 207 to 221). -/
def calculateSettlement (m : MatchCandidate) : Settlement :=
  { baseAmount := m.expectedQuantity
    quoteAmount :=
      Int.tdiv (m.expectedQuantity * m.expectedPrice) BASIS_POINTS_PER_DOLLAR
    matcherFee :=
      Int.tdiv
        (Int.tdiv (m.expectedQuantity * m.expectedPrice)
          BASIS_POINTS_PER_DOLLAR * MATCHER_FEE_BPS)
        BASIS_POINTS_PER_DOLLAR }

namespace SettlementExecutor

/-- `SettlementExecutor.calculateMatcherFee` (executor.ts lines 156 to 162),
with its local constants `MATCHER_FEE_BPS = 5n` and
`BASIS_POINTS_PER_DOLLAR = 10000n` inlined literally. -/
def calculateMatcherFee (m : MatchCandidate) : ℤ :=
  Int.tdiv (Int.tdiv (m.expectedQuantity * m.expectedPrice) 10000 * 5) 10000

end SettlementExecutor

namespace ContractHelpers

/-- Parameters of a submission, as validated by the client contract-helper
module (`TickOrderParams`). -/
structure TickOrderParams where
  tokenPairId : ℤ
  tickLower : ℤ
  tickUpper : ℤ
  limitPrice : ℤ
  quantity : ℤ
  deriving Repr, DecidableEq

/-- The error messages returned by the contract-helper `validateTickOrder`,
one constructor per message string. -/
inductive ValidationError where
  | invalidTokenPairId
  | tickLowerNotBelowUpper
  | tickRangeTooWide
  | tickRangeNotPositive
  | limitPriceOutsideRange
  | quantityNotPositive
  deriving Repr, DecidableEq

/-- `config.TICK_SIZE = 100` of the client config. -/
def CONFIG_TICK_SIZE : ℤ := 100

/-- `config.MAX_TICK_RANGE = 50` of the client config. -/
def CONFIG_MAX_TICK_RANGE : ℤ := 50

/-- `validateTickOrder` of the client contract-helper module: the checks in
source order, returning the first failing message (`null`, here `none`, on
success). -/
def validateTickOrder (o : TickOrderParams) : Option ValidationError :=
  if o.tokenPairId ≤ 0 then some .invalidTokenPairId
  else if o.tickLower ≥ o.tickUpper then some .tickLowerNotBelowUpper
  else if o.tickUpper - o.tickLower > CONFIG_MAX_TICK_RANGE then
    some .tickRangeTooWide
  else if o.tickUpper - o.tickLower ≤ 0 then some .tickRangeNotPositive
  else if o.limitPrice < o.tickLower * CONFIG_TICK_SIZE ∨
      o.limitPrice > o.tickUpper * CONFIG_TICK_SIZE then
    some .limitPriceOutsideRange
  else if o.quantity ≤ 0 then some .quantityNotPositive
  else none

/-- `calculateMidpointPrice` of the client contract-helper module:
`Math.floor((buyLimitBps + sellLimitBps) / 2)`; exact double arithmetic on
integers below `2 ^ 53` makes this floor division. -/
def calculateMidpointPrice (buyLimitBps sellLimitBps : ℤ) : ℤ :=
  Int.fdiv (buyLimitBps + sellLimitBps) 2

end ContractHelpers

namespace AleoContract

/-- `TickOrderInput` of aleo-contract.ts. -/
structure TickOrderInput where
  tokenPair : ℤ
  isBuy : Bool
  tickLower : ℤ
  tickUpper : ℤ
  limitPrice : ℤ
  quantity : ℤ
  deriving Repr, DecidableEq

/-- `AleoContract.validateTickOrder` (aleo-contract.ts lines 130 to 157),
with its local constants `TICK_SIZE = 100` and `MAX_TICK_RANGE = 50`. -/
def validateTickOrder (o : TickOrderInput) : Bool :=
  let rangeWidth := o.tickUpper - o.tickLower
  if rangeWidth > 50 ∨ rangeWidth ≤ 0 then false
  else if o.limitPrice < o.tickLower * 100 ∨ o.limitPrice > o.tickUpper * 100
  then false
  else if o.quantity ≤ 0 then false
  else true

/-- `calculateMidpointPrice` (aleo-contract.ts lines 188 to 193):
`(buyLimit + sellLimit) / 2` on JS numbers, with NO flooring; modelled over
`ℚ` (exact for the integer inputs considered, which stay below `2 ^ 53`). -/
def calculateMidpointPrice (buyLimit sellLimit : ℚ) : ℚ :=
  (buyLimit + sellLimit) / 2

end AleoContract

/-! ## Concrete instances used by the claims -/

/-- Scenario-A buy order (pair 1, ticks 1495 to 1505, limit 150000 bp,
quantity 1000). -/
def c1Buy : TickOrder :=
  { owner := 1, token_pair := 1, is_buy := true, tick_lower := 1495
    tick_upper := 1505, limit_price := 150000, quantity := 1000
    filled := 0, created_at := 1, nonce := 1 }

/-- Scenario-A sell order (limit 149500 bp, quantity 1000). -/
def c1Sell : TickOrder :=
  { owner := 2, token_pair := 1, is_buy := false, tick_lower := 1495
    tick_upper := 1505, limit_price := 149500, quantity := 1000
    filled := 0, created_at := 2, nonce := 2 }

/-- The candidate of scenario A: fill 1000 at execution price 149750 bp. -/
def c1Candidate : MatchCandidate :=
  { buyOrder := c1Buy, sellOrder := c1Sell
    overlapTicks := overlapTickList 1495 1505
    expectedQuantity := 1000, expectedPrice := 149750, profitability := 507 }

/-- Legal-but-unprofitable buy order: equal limit prices on a low-value
trade (price 1500 bp, quantity 1). -/
def c3Buy : TickOrder :=
  { owner := 1, token_pair := 1, is_buy := true, tick_lower := 10
    tick_upper := 20, limit_price := 1500, quantity := 1
    filled := 0, created_at := 1, nonce := 1 }

/-- Matching sell order for `c3Buy` with the same limit price. -/
def c3Sell : TickOrder :=
  { owner := 2, token_pair := 1, is_buy := false, tick_lower := 10
    tick_upper := 20, limit_price := 1500, quantity := 1
    filled := 0, created_at := 2, nonce := 2 }

/-- Buy order spanning ticks 1495 to 1505 for the duplicate-emission scan. -/
def c4Buy : TickOrder :=
  { owner := 1, token_pair := 1, is_buy := true, tick_lower := 1495
    tick_upper := 1505, limit_price := 150000, quantity := 1000
    filled := 0, created_at := 1, nonce := 1 }

/-- Sell order spanning the same ticks as `c4Buy`. -/
def c4Sell : TickOrder :=
  { owner := 2, token_pair := 1, is_buy := false, tick_lower := 1495
    tick_upper := 1505, limit_price := 149500, quantity := 1000
    filled := 0, created_at := 2, nonce := 2 }

/-- Registry entry for tick 1495 with liquidity on both sides. -/
def c4InfoA : TickInfo :=
  { tick_id := 1495, token_pair := 1, total_buy_quantity := 1000
    total_sell_quantity := 1000, num_orders := 2, last_update := 0 }

/-- Registry entry for tick 1496 with liquidity on both sides. -/
def c4InfoB : TickInfo :=
  { tick_id := 1496, token_pair := 1, total_buy_quantity := 1000
    total_sell_quantity := 1000, num_orders := 2, last_update := 0 }

/-- Scan state in which the single (buy, sell) pair covers the two
overlapping ticks 1495 and 1496. -/
def c4State : RegistryState :=
  { tickRegistry := [(1495, c4InfoA), (1496, c4InfoB)]
    buyOrders := [(1, c4Buy)], sellOrders := [(2, c4Sell)] }

/-- The candidate that the scan over `c4State` emits (twice). -/
def c4Cand : MatchCandidate :=
  { buyOrder := c4Buy, sellOrder := c4Sell
    overlapTicks := overlapTickList 1495 1505
    expectedQuantity := 1000, expectedPrice := 149750, profitability := 507 }

/-- Buy order for the tie-break scan. -/
def c5Buy : TickOrder :=
  { owner := 1, token_pair := 1, is_buy := true, tick_lower := 1495
    tick_upper := 1505, limit_price := 150000, quantity := 1000
    filled := 0, created_at := 1, nonce := 1 }

/-- Sell order created later (timestamp 10) but inserted into the book
first. -/
def c5SellLate : TickOrder :=
  { owner := 2, token_pair := 1, is_buy := false, tick_lower := 1495
    tick_upper := 1505, limit_price := 149500, quantity := 1000
    filled := 0, created_at := 10, nonce := 12 }

/-- Sell order created earlier (timestamp 5) but inserted into the book
second. -/
def c5SellEarly : TickOrder :=
  { owner := 3, token_pair := 1, is_buy := false, tick_lower := 1495
    tick_upper := 1505, limit_price := 149500, quantity := 1000
    filled := 0, created_at := 5, nonce := 11 }

/-- Registry entry for the tie-break scan. -/
def c5Info : TickInfo :=
  { tick_id := 1495, token_pair := 1, total_buy_quantity := 1000
    total_sell_quantity := 2000, num_orders := 3, last_update := 0 }

/-- Scan state with two equally profitable sells whose book order disagrees
with their creation order. -/
def c5State : RegistryState :=
  { tickRegistry := [(1495, c5Info)]
    buyOrders := [(1, c5Buy)]
    sellOrders := [(12, c5SellLate), (11, c5SellEarly)] }

/-- Candidate against the later-created sell. -/
def c5CandLate : MatchCandidate :=
  { buyOrder := c5Buy, sellOrder := c5SellLate
    overlapTicks := overlapTickList 1495 1505
    expectedQuantity := 1000, expectedPrice := 149750, profitability := 507 }

/-- Candidate against the earlier-created sell. -/
def c5CandEarly : MatchCandidate :=
  { buyOrder := c5Buy, sellOrder := c5SellEarly
    overlapTicks := overlapTickList 1495 1505
    expectedQuantity := 1000, expectedPrice := 149750, profitability := 507 }

/-- Live buy order whose half-open tick range [1, 2) is disjoint from the
query [2, 3) although the code returns it. -/
def c6Stale : TickOrder :=
  { owner := 1, token_pair := 1, is_buy := true, tick_lower := 1
    tick_upper := 2, limit_price := 150, quantity := 1
    filled := 0, created_at := 20, nonce := 1 }

/-- Overlapping buy order created later but inserted earlier. -/
def c6Late : TickOrder :=
  { owner := 2, token_pair := 1, is_buy := true, tick_lower := 2
    tick_upper := 5, limit_price := 250, quantity := 1
    filled := 0, created_at := 10, nonce := 2 }

/-- Overlapping buy order created earlier but inserted later. -/
def c6Early : TickOrder :=
  { owner := 3, token_pair := 1, is_buy := true, tick_lower := 2
    tick_upper := 5, limit_price := 250, quantity := 1
    filled := 0, created_at := 5, nonce := 3 }

/-- Order book for the overlap-query counterexample. -/
def c6State : RegistryState :=
  { tickRegistry := []
    buyOrders := [(1, c6Stale), (2, c6Late), (3, c6Early)]
    sellOrders := [] }

/-- Resident order of the pre-submit state for the round trip. -/
def c8Resident : TickOrder :=
  { owner := 9, token_pair := 1, is_buy := true, tick_lower := 1400
    tick_upper := 1450, limit_price := 142000, quantity := 500
    filled := 0, created_at := 3, nonce := 42 }

/-- Pre-submit registry state for the round trip. -/
def c8State : RegistryState :=
  { tickRegistry := [], buyOrders := [(42, c8Resident)], sellOrders := [] }

/-- Fresh order submitted and then cancelled. -/
def c8Order : TickOrder :=
  { owner := 4, token_pair := 1, is_buy := true, tick_lower := 1490
    tick_upper := 1510, limit_price := 150000, quantity := 1000
    filled := 0, created_at := 9, nonce := 7 }

/-- Legal-but-unprofitable buy order for the gate claim. -/
def c9Buy : TickOrder :=
  { owner := 5, token_pair := 1, is_buy := true, tick_lower := 10
    tick_upper := 20, limit_price := 1500, quantity := 1
    filled := 0, created_at := 1, nonce := 5 }

/-- Matching sell order for `c9Buy` with the same limit price. -/
def c9Sell : TickOrder :=
  { owner := 6, token_pair := 1, is_buy := false, tick_lower := 10
    tick_upper := 20, limit_price := 1500, quantity := 1
    filled := 0, created_at := 2, nonce := 6 }

/-- Profitable buy order used to witness the gate lower bound. -/
def c9GoodBuy : TickOrder :=
  { owner := 7, token_pair := 1, is_buy := true, tick_lower := 1495
    tick_upper := 1505, limit_price := 150000, quantity := 1000
    filled := 0, created_at := 1, nonce := 7 }

/-- Profitable sell order matched with `c9GoodBuy`. -/
def c9GoodSell : TickOrder :=
  { owner := 8, token_pair := 1, is_buy := false, tick_lower := 1495
    tick_upper := 1505, limit_price := 149500, quantity := 1000
    filled := 0, created_at := 2, nonce := 8 }

/-- The candidate produced for `c9GoodBuy` and `c9GoodSell`. -/
def c9GoodCand : MatchCandidate :=
  { buyOrder := c9GoodBuy, sellOrder := c9GoodSell
    overlapTicks := overlapTickList 1495 1505
    expectedQuantity := 1000, expectedPrice := 149750, profitability := 507 }

/-! ## Claim theorems -/

/-- Helper: truncating division of a nonnegative integer by 10000 is floor
division, characterised by its bounding inequalities. -/
theorem tdiv_ten_thousand_bounds (x : ℤ) (hx : 0 ≤ x) :
    0 ≤ Int.tdiv x 10000 ∧ 10000 * Int.tdiv x 10000 ≤ x ∧
      x < 10000 * Int.tdiv x 10000 + 10000 := by
  rw [Int.tdiv_eq_ediv hx (by norm_num)]
  omega

/-- C1: for every match candidate with nonnegative fill quantity and
execution price (as the engine produces), `calculateSettlement` returns
`baseAmount = fill_qty`, `quoteAmount = ⌊fill_qty * exec_price / 10000⌋`
(stated by the floor-division inequalities) and
`matcherFee = ⌊quoteAmount * 5 / 10000⌋`; in particular, for
`fill_qty = 1000` and `exec_price = 149750` it returns
`quoteAmount = 14975` and `matcherFee = 7`. -/
theorem c1_calculateSettlement_values :
    (∀ m : MatchCandidate, 0 ≤ m.expectedQuantity → 0 ≤ m.expectedPrice →
      (calculateSettlement m).baseAmount = m.expectedQuantity ∧
      0 ≤ (calculateSettlement m).quoteAmount ∧
      10000 * (calculateSettlement m).quoteAmount ≤
        m.expectedQuantity * m.expectedPrice ∧
      m.expectedQuantity * m.expectedPrice <
        10000 * (calculateSettlement m).quoteAmount + 10000 ∧
      10000 * (calculateSettlement m).matcherFee ≤
        (calculateSettlement m).quoteAmount * 5 ∧
      (calculateSettlement m).quoteAmount * 5 <
        10000 * (calculateSettlement m).matcherFee + 10000) ∧
    (calculateSettlement c1Candidate).baseAmount = 1000 ∧
    (calculateSettlement c1Candidate).quoteAmount = 14975 ∧
    (calculateSettlement c1Candidate).matcherFee = 7 := by
  refine ⟨?_, by decide, by decide, by decide⟩
  intro m hq hp
  have h1 : (0 : ℤ) ≤ m.expectedQuantity * m.expectedPrice := mul_nonneg hq hp
  obtain ⟨ha, hb, hc⟩ := tdiv_ten_thousand_bounds _ h1
  obtain ⟨hd, he, hf⟩ := tdiv_ten_thousand_bounds
    (Int.tdiv (m.expectedQuantity * m.expectedPrice) 10000 * 5)
    (mul_nonneg ha (by norm_num))
  exact ⟨rfl, ha, hb, hc, he, hf⟩

/-- Witness for C1 at the scenario-A candidate. -/
theorem c1_calculateSettlement_values_witness :
    (calculateSettlement c1Candidate).baseAmount =
      c1Candidate.expectedQuantity ∧
    0 ≤ (calculateSettlement c1Candidate).quoteAmount ∧
    10000 * (calculateSettlement c1Candidate).quoteAmount ≤
      c1Candidate.expectedQuantity * c1Candidate.expectedPrice ∧
    c1Candidate.expectedQuantity * c1Candidate.expectedPrice <
      10000 * (calculateSettlement c1Candidate).quoteAmount + 10000 ∧
    10000 * (calculateSettlement c1Candidate).matcherFee ≤
      (calculateSettlement c1Candidate).quoteAmount * 5 ∧
    (calculateSettlement c1Candidate).quoteAmount * 5 <
      10000 * (calculateSettlement c1Candidate).matcherFee + 10000 :=
  c1_calculateSettlement_values.1 c1Candidate (by decide) (by decide)

/-- C2 counterexample: the midpoint function of aleo-contract.ts divides
without truncating; at buy 150005 and sell 150000 it returns 150002.5, not
150002, so the claim that every midpoint function in the code truncates is
false. -/
theorem c2_counterexample :
    AleoContract.calculateMidpointPrice 150005 150000 = 300005 / 2 ∧
    AleoContract.calculateMidpointPrice 150005 150000 ≠ 150002 := by
  constructor <;> norm_num [AleoContract.calculateMidpointPrice]

/-- C2 (amended): the matcher execution price and the contract-helper
midpoint are the round-down integer halving of the sum of the two limit
prices (the matcher under the nonnegative sums that prices have), and both
give 150002 at buy 150005, sell 150000; the midpoint function of
aleo-contract.ts instead returns the exact untruncated average. -/
theorem c2_midpoint_rounding :
    (∀ b s : ℤ, 0 ≤ b + s →
      2 * matcherExecutionPrice b s ≤ b + s ∧
      b + s < 2 * matcherExecutionPrice b s + 2) ∧
    (∀ b s : ℤ,
      2 * ContractHelpers.calculateMidpointPrice b s ≤ b + s ∧
      b + s < 2 * ContractHelpers.calculateMidpointPrice b s + 2) ∧
    (∀ b s : ℚ, 2 * AleoContract.calculateMidpointPrice b s = b + s) ∧
    matcherExecutionPrice 150005 150000 = 150002 ∧
    ContractHelpers.calculateMidpointPrice 150005 150000 = 150002 ∧
    AleoContract.calculateMidpointPrice 150005 150000 ≠ 150002 := by
  refine ⟨?_, ?_, ?_, by decide, by decide,
    by norm_num [AleoContract.calculateMidpointPrice]⟩
  · intro b s h
    unfold matcherExecutionPrice
    rw [Int.tdiv_eq_ediv h (by norm_num)]
    omega
  · intro b s
    unfold ContractHelpers.calculateMidpointPrice
    rw [Int.fdiv_eq_ediv _ (by norm_num)]
    omega
  · intro b s
    unfold AleoContract.calculateMidpointPrice
    ring

/-- Witness for C2 at buy 150005, sell 150000. -/
theorem c2_midpoint_rounding_witness :
    2 * matcherExecutionPrice 150005 150000 ≤ 150005 + 150000 ∧
    (150005 : ℤ) + 150000 < 2 * matcherExecutionPrice 150005 150000 + 2 :=
  c2_midpoint_rounding.1 150005 150000 (by norm_num)

/-- Submission with a non-positive token pair id but all four claimed
conditions satisfied. -/
def c7BadInput : ContractHelpers.TickOrderParams :=
  { tokenPairId := 0, tickLower := 1, tickUpper := 2, limitPrice := 150
    quantity := 5 }

/-- C7 counterexample: the contract-helper validator also rejects a
non-positive token pair id, so acceptance is not equivalent to the four
conditions of the claim: this input satisfies all four yet is rejected. -/
theorem c7_counterexample :
    ContractHelpers.validateTickOrder c7BadInput =
      some ContractHelpers.ValidationError.invalidTokenPairId ∧
    c7BadInput.tickLower < c7BadInput.tickUpper ∧
    c7BadInput.tickUpper - c7BadInput.tickLower ≤
      ContractHelpers.CONFIG_MAX_TICK_RANGE ∧
    c7BadInput.tickLower * ContractHelpers.CONFIG_TICK_SIZE ≤
      c7BadInput.limitPrice ∧
    c7BadInput.limitPrice ≤
      c7BadInput.tickUpper * ContractHelpers.CONFIG_TICK_SIZE ∧
    0 < c7BadInput.quantity := by decide

/-- C7 (amended): the contract-helper validator accepts exactly when the
token pair id is positive AND the four claimed conditions hold
(`tick_lower < tick_upper`, width at most the maximum 50 with equality
accepted, limit price between the two endpoint prices inclusive, positive
quantity); the simulated-contract validator of aleo-contract.ts accepts
exactly the four claimed conditions. -/
theorem c7_validation_iff :
    (∀ o : ContractHelpers.TickOrderParams,
      ContractHelpers.validateTickOrder o = none ↔
        (0 < o.tokenPairId ∧ o.tickLower < o.tickUpper ∧
         o.tickUpper - o.tickLower ≤ 50 ∧
         o.tickLower * 100 ≤ o.limitPrice ∧
         o.limitPrice ≤ o.tickUpper * 100 ∧
         0 < o.quantity)) ∧
    (∀ o : AleoContract.TickOrderInput,
      AleoContract.validateTickOrder o = true ↔
        (o.tickLower < o.tickUpper ∧ o.tickUpper - o.tickLower ≤ 50 ∧
         o.tickLower * 100 ≤ o.limitPrice ∧
         o.limitPrice ≤ o.tickUpper * 100 ∧
         0 < o.quantity)) := by
  constructor
  · intro o
    unfold ContractHelpers.validateTickOrder ContractHelpers.CONFIG_TICK_SIZE
      ContractHelpers.CONFIG_MAX_TICK_RANGE
    split_ifs <;> simp_all <;> omega
  · intro o
    unfold AleoContract.validateTickOrder
    split_ifs <;> simp_all <;> omega

/-- C10: the settlement executor fee and the matching engine settlement fee
are the same function of a match candidate. -/
theorem c10_executor_fee_agrees :
    ∀ m : MatchCandidate,
      SettlementExecutor.calculateMatcherFee m =
        (calculateSettlement m).matcherFee :=
  fun _ => rfl

/-- C3 counterexample: `c3Buy` and `c3Sell` satisfy every rejection-free
condition listed by the claim (same pair, distinct owners, crossing prices,
overlapping tick ranges, neither filled, midpoint inside the overlap price
interval), yet `evaluateMatch` produces no candidate, because of the
minimum-profitability gate the claim omits. -/
theorem c3_counterexample :
    evaluateMatch defaultMinProfitBasisPoints c3Buy c3Sell = none ∧
    c3Buy.token_pair = c3Sell.token_pair ∧
    c3Buy.owner ≠ c3Sell.owner ∧
    c3Sell.limit_price ≤ c3Buy.limit_price ∧
    max c3Buy.tick_lower c3Sell.tick_lower ≤
      min c3Buy.tick_upper c3Sell.tick_upper ∧
    c3Buy.filled < c3Buy.quantity ∧ c3Sell.filled < c3Sell.quantity ∧
    max c3Buy.tick_lower c3Sell.tick_lower * 100 ≤
      matcherExecutionPrice c3Buy.limit_price c3Sell.limit_price ∧
    matcherExecutionPrice c3Buy.limit_price c3Sell.limit_price ≤
      min c3Buy.tick_upper c3Sell.tick_upper * 100 := by decide

/-- C3 (amended): for orders with `filled ≤ quantity`, the candidate check
rejects exactly when the pair ids differ, the owners coincide, the closed
tick ranges do not overlap, the prices do not cross, either order is fully
filled, the truncated midpoint falls outside the overlap price interval, OR
the profitability (price spread plus matcher fee) is below the configured
minimum; in every other case a candidate is produced. -/
theorem c3_check_match_rejects_iff :
    ∀ (minBps : ℤ) (b s : TickOrder),
      b.filled ≤ b.quantity → s.filled ≤ s.quantity →
      (evaluateMatch minBps b s = none ↔
        (b.token_pair ≠ s.token_pair ∨
         b.owner = s.owner ∨
         min b.tick_upper s.tick_upper < max b.tick_lower s.tick_lower ∨
         b.limit_price < s.limit_price ∨
         b.filled = b.quantity ∨ s.filled = s.quantity ∨
         matcherExecutionPrice b.limit_price s.limit_price <
           max b.tick_lower s.tick_lower * 100 ∨
         min b.tick_upper s.tick_upper * 100 <
           matcherExecutionPrice b.limit_price s.limit_price ∨
         b.limit_price - s.limit_price +
           Int.tdiv (Int.tdiv
             (min (b.quantity - b.filled) (s.quantity - s.filled) *
              matcherExecutionPrice b.limit_price s.limit_price) 10000 * 5)
             10000 < minBps)) := by
  intro minBps b s hb hs
  simp only [evaluateMatch, TICK_SIZE, BASIS_POINTS_PER_DOLLAR,
    MATCHER_FEE_BPS]
  split_ifs <;> simp_all <;> omega

/-- Witness for C3 at the concrete unprofitable pair. -/
theorem c3_check_match_rejects_iff_witness :
    evaluateMatch 10 c3Buy c3Sell = none ↔
      (c3Buy.token_pair ≠ c3Sell.token_pair ∨
       c3Buy.owner = c3Sell.owner ∨
       min c3Buy.tick_upper c3Sell.tick_upper <
         max c3Buy.tick_lower c3Sell.tick_lower ∨
       c3Buy.limit_price < c3Sell.limit_price ∨
       c3Buy.filled = c3Buy.quantity ∨ c3Sell.filled = c3Sell.quantity ∨
       matcherExecutionPrice c3Buy.limit_price c3Sell.limit_price <
         max c3Buy.tick_lower c3Sell.tick_lower * 100 ∨
       min c3Buy.tick_upper c3Sell.tick_upper * 100 <
         matcherExecutionPrice c3Buy.limit_price c3Sell.limit_price ∨
       c3Buy.limit_price - c3Sell.limit_price +
         Int.tdiv (Int.tdiv
           (min (c3Buy.quantity - c3Buy.filled)
             (c3Sell.quantity - c3Sell.filled) *
            matcherExecutionPrice c3Buy.limit_price c3Sell.limit_price)
           10000 * 5) 10000 < 10) :=
  c3_check_match_rejects_iff 10 c3Buy c3Sell (by decide) (by decide)

/-- C4 counterexample: in `c4State` the single (buy, sell) pair spans the
two scanned overlapping ticks 1495 and 1496, and one scan emits the same
pair twice, so pairs are not emitted at most once per scan. -/
theorem c4_counterexample :
    (findMatches defaultMinProfitBasisPoints c4State).map
      (fun c => (c.buyOrder.nonce, c.sellOrder.nonce)) =
      [(1, 2), (1, 2)] ∧
    c4Buy.nonce = 1 ∧ c4Sell.nonce = 2 := by
  have h : (findOverlappingTicks c4State).flatMap
      (findMatchesAtTick defaultMinProfitBasisPoints c4State) =
      [c4Cand, c4Cand] := by decide
  refine ⟨?_, by decide, by decide⟩
  unfold findMatches
  rw [h, List.mergeSort_of_sorted (by decide)]
  decide

/-- C4 (amended): a scan performs no cross-tick deduplication: for every
predicate on candidates, the number of matching candidates that
`findMatches` emits equals the sum over the scanned overlapping ticks of
the number of matching candidates found at that tick, so each (buy, sell)
pair appears once for every scanned tick at which it evaluates to a
match. -/
theorem c4_emission_count :
    ∀ (minBps : ℤ) (st : RegistryState) (p : MatchCandidate → Bool),
      (findMatches minBps st).countP p =
        ((findOverlappingTicks st).map
          (fun t => (findMatchesAtTick minBps st t).countP p)).sum := by
  intro minBps st p
  unfold findMatches
  rw [(List.mergeSort_perm _ _).countP_eq, List.countP_flatMap]
  rfl

/-- C5 counterexample: the emitted candidate for the scenario-A pair has
profitability 507 = spread + matcher fee, not spread times projected fill
(500000); and with two equally profitable candidates the scan keeps
encounter order [nonce 12, nonce 11] although the sell with nonce 11 was
created earlier, so ties are not broken by (buy.created_at,
sell.created_at). -/
theorem c5_counterexample :
    evaluateMatch defaultMinProfitBasisPoints c5Buy c5SellLate =
      some c5CandLate ∧
    c5CandLate.profitability = 507 ∧
    (507 : ℤ) ≠ (c5Buy.limit_price - c5SellLate.limit_price) *
      c5CandLate.expectedQuantity ∧
    (findMatches defaultMinProfitBasisPoints c5State).map
      (fun c => c.sellOrder.nonce) = [12, 11] ∧
    (findMatches defaultMinProfitBasisPoints c5State).map
      (fun c => c.profitability) = [507, 507] ∧
    c5SellEarly.created_at < c5SellLate.created_at := by
  have h : (findOverlappingTicks c5State).flatMap
      (findMatchesAtTick defaultMinProfitBasisPoints c5State) =
      [c5CandLate, c5CandEarly] := by decide
  refine ⟨by decide, by decide, by decide, ?_, ?_, by decide⟩ <;>
    (unfold findMatches; rw [h, List.mergeSort_of_sorted (by decide)];
      decide)

/-- C5 (amended): every emitted candidate carries projected fill
`min(buy remaining, sell remaining)`, the truncated midpoint price, and
profitability `(buy.limit_price - sell.limit_price) + matcher_fee`; a scan
emits candidates in descending profitability order (ties keep encounter
order, the sort being stable). -/
theorem c5_candidate_fields_and_order :
    (∀ (minBps : ℤ) (b s : TickOrder) (c : MatchCandidate),
      evaluateMatch minBps b s = some c →
        c.buyOrder = b ∧ c.sellOrder = s ∧
        c.expectedQuantity =
          min (b.quantity - b.filled) (s.quantity - s.filled) ∧
        c.expectedPrice = matcherExecutionPrice b.limit_price s.limit_price ∧
        c.profitability = b.limit_price - s.limit_price +
          Int.tdiv (Int.tdiv (c.expectedQuantity * c.expectedPrice) 10000 * 5)
            10000) ∧
    (∀ (minBps : ℤ) (st : RegistryState),
      (findMatches minBps st).Pairwise
        (fun a b => b.profitability ≤ a.profitability)) := by
  constructor
  · intro minBps b s c h
    simp only [evaluateMatch, TICK_SIZE, BASIS_POINTS_PER_DOLLAR,
      MATCHER_FEE_BPS] at h
    split_ifs at h
    cases h
    exact ⟨rfl, rfl, rfl, rfl, rfl⟩
  · intro minBps st
    have h := @List.sorted_mergeSort MatchCandidate candLe
      (fun a b c hab hbc => by
        simp only [candLe, decide_eq_true_eq] at *
        omega)
      (fun a b => by
        simp only [candLe, Bool.or_eq_true, decide_eq_true_eq]
        omega)
      ((findOverlappingTicks st).flatMap (findMatchesAtTick minBps st))
    exact h.imp (fun hab => by
      simpa only [candLe, decide_eq_true_eq] using hab)

/-- Witness for C5 at the scenario-A candidate. -/
theorem c5_candidate_fields_and_order_witness :
    c5CandLate.buyOrder = c5Buy ∧ c5CandLate.sellOrder = c5SellLate ∧
    c5CandLate.expectedQuantity =
      min (c5Buy.quantity - c5Buy.filled)
        (c5SellLate.quantity - c5SellLate.filled) ∧
    c5CandLate.expectedPrice =
      matcherExecutionPrice c5Buy.limit_price c5SellLate.limit_price ∧
    c5CandLate.profitability = c5Buy.limit_price - c5SellLate.limit_price +
      Int.tdiv (Int.tdiv
        (c5CandLate.expectedQuantity * c5CandLate.expectedPrice) 10000 * 5)
        10000 :=
  c5_candidate_fields_and_order.1 defaultMinProfitBasisPoints c5Buy
    c5SellLate c5CandLate (by decide)

/-- C6 counterexample: the live order `c6Stale` with range [1, 2) is
returned for the query [2, 3) although the half-open intervals are
disjoint, and the returned sequence has created_at values [20, 10, 5],
which is not ascending created_at order. -/
theorem c6_counterexample :
    c6Stale ∈ getBuyOrdersInRange c6State 2 3 ∧
    ¬ max c6Stale.tick_lower 2 < min c6Stale.tick_upper 3 ∧
    (getBuyOrdersInRange c6State 2 3).map (fun o => o.created_at) =
      [20, 10, 5] ∧
    c6Early.created_at < c6Late.created_at := by decide

/-- C6 (amended): the buy-order overlap query returns exactly the live
(not fully filled) buy orders whose CLOSED tick interval
[tick_lower, tick_upper] intersects the closed query interval
(`tick_lower ≤ query_upper` and `query_lower ≤ tick_upper`), each book
entry at most once and in order-book insertion order (the result is a
sublist of the book values). -/
theorem c6_overlap_query :
    ∀ (st : RegistryState) (l u : ℤ),
      (∀ o : TickOrder, o ∈ getBuyOrdersInRange st l u ↔
        (o ∈ st.buyOrders.map Prod.snd ∧ o.tick_lower ≤ u ∧
         l ≤ o.tick_upper ∧ o.filled < o.quantity)) ∧
      (getBuyOrdersInRange st l u).Sublist (st.buyOrders.map Prod.snd) := by
  intro st l u
  constructor
  · intro o
    unfold getBuyOrdersInRange
    simp [List.mem_filter, and_assoc]
  · exact List.filter_sublist _

/-- Helper: deleting a key that was just set on a map not containing it
restores the map. -/
theorem mapDelete_mapSet_of_not_mem (k : ℕ) (v : TickOrder)
    (l : List (ℕ × TickOrder)) (h : k ∉ l.map Prod.fst) :
    mapDelete k (mapSet k v l) = l := by
  induction l with
  | nil => simp [mapSet, mapDelete]
  | cons e rest ih =>
    simp only [List.map_cons, List.mem_cons] at h
    push_neg at h
    obtain ⟨h1, h2⟩ := h
    rw [mapSet, if_neg (fun hh => h1 hh.symm)]
    unfold mapDelete
    rw [List.filter_cons_of_pos (by simpa using fun hh => h1 hh.symm)]
    exact congrArg (e :: ·) (ih h2)

/-- C8: for every registry state and every order whose nonce is not already
a key of either order-book map, adding the order and then removing it under
its nonce and side leaves the whole `RegistryMonitor` state (tick registry
and both order books) identical to the pre-submit state. -/
theorem c8_submit_cancel_identity :
    ∀ (st : RegistryState) (o : TickOrder),
      o.nonce ∉ st.buyOrders.map Prod.fst →
      o.nonce ∉ st.sellOrders.map Prod.fst →
      removeOrder (addOrder st o) o.nonce o.is_buy = st := by
  intro st o hb hs
  unfold addOrder removeOrder
  cases hbuy : o.is_buy
  · simp only [Bool.false_eq_true, if_neg, ite_false]
    rw [mapDelete_mapSet_of_not_mem _ _ _ hs]
  · simp only [ite_true]
    rw [mapDelete_mapSet_of_not_mem _ _ _ hb]

/-- Witness for C8 at a concrete one-order book and fresh order. -/
theorem c8_submit_cancel_identity_witness :
    c8Order.nonce ∉ c8State.buyOrders.map Prod.fst ∧
    c8Order.nonce ∉ c8State.sellOrders.map Prod.fst ∧
    removeOrder (addOrder c8State c8Order) c8Order.nonce c8Order.is_buy =
      c8State :=
  ⟨by decide, by decide,
    c8_submit_cancel_identity c8State c8Order (by decide) (by decide)⟩

/-- C9: every candidate the engine emits has profitability at least the
configured minimum profit in basis points, and at the default minimum of
10 the legal pair `c9Buy` / `c9Sell` (same pair, distinct owners, crossing
prices, overlapping ranges, neither filled, midpoint in bounds) yields no
candidate. -/
theorem c9_min_profit_gate :
    (∀ (minBps : ℤ) (b s : TickOrder) (c : MatchCandidate),
      evaluateMatch minBps b s = some c → minBps ≤ c.profitability) ∧
    evaluateMatch defaultMinProfitBasisPoints c9Buy c9Sell = none ∧
    c9Buy.token_pair = c9Sell.token_pair ∧
    c9Buy.owner ≠ c9Sell.owner ∧
    c9Sell.limit_price ≤ c9Buy.limit_price ∧
    max c9Buy.tick_lower c9Sell.tick_lower ≤
      min c9Buy.tick_upper c9Sell.tick_upper ∧
    c9Buy.filled < c9Buy.quantity ∧ c9Sell.filled < c9Sell.quantity ∧
    max c9Buy.tick_lower c9Sell.tick_lower * 100 ≤
      matcherExecutionPrice c9Buy.limit_price c9Sell.limit_price ∧
    matcherExecutionPrice c9Buy.limit_price c9Sell.limit_price ≤
      min c9Buy.tick_upper c9Sell.tick_upper * 100 := by
  refine ⟨?_, by decide, by decide, by decide, by decide, by decide,
    by decide, by decide, by decide, by decide⟩
  intro minBps b s c h
  simp only [evaluateMatch, TICK_SIZE, BASIS_POINTS_PER_DOLLAR,
    MATCHER_FEE_BPS] at h
  split_ifs at h with h1 h2 h3 h4 h5 h6 h7
  cases h
  simp only
  omega

/-- Witness for C9: the gate bound applied to a concretely emitted
candidate. -/
theorem c9_min_profit_gate_witness :
    defaultMinProfitBasisPoints ≤ c9GoodCand.profitability :=
  c9_min_profit_gate.1 defaultMinProfitBasisPoints c9GoodBuy c9GoodSell
    c9GoodCand (by decide)
